import Mathlib

/-!
Verification development for the iis2mdc magnetometer driver.

The register layouts are embedded from the declarations in
src/src/register/main.rs with the default feature set (least
significant bit first bit order).  Each register layout becomes a Lean
structure with one natural number per declared bit-field; `decode`
extracts the fields of a byte by shift and mask exactly as the declared
widths and declaration order dictate, and `encode` packs them back,
truncating each field to its declared width (the datasheet-register
convention of the bit-packing in the source).  The enumerated
configuration values become inductive types with their integer codes.
The device facade of the crate is not part of the given sources, so
those operations are modelled from the specification over a mock
register file and a mock bus transport.
-/

namespace Iis2mdc

/-- Register addresses of the device, from the Reg enum in
src/src/register/main.rs. -/
inductive Reg where
  | OffsetXRegL
  | OffsetXRegH
  | OffsetYRegL
  | OffsetYRegH
  | OffsetZRegL
  | OffsetZRegH
  | WhoAmI
  | CfgRegA
  | CfgRegB
  | CfgRegC
  | IntCtrlReg
  | IntSourceReg
  | IntThsLReg
  | IntThsHReg
  | StatusReg
  | OutxLReg
  | OutxHReg
  | OutyLReg
  | OutyHReg
  | OutzLReg
  | OutzHReg
  | TempOutLReg
  | TempOutHReg
  deriving DecidableEq

/-- The numeric address of each register, as assigned in the source. -/
def Reg.addr : Reg → Nat
  | .OffsetXRegL => 0x45
  | .OffsetXRegH => 0x46
  | .OffsetYRegL => 0x47
  | .OffsetYRegH => 0x48
  | .OffsetZRegL => 0x49
  | .OffsetZRegH => 0x4A
  | .WhoAmI => 0x4F
  | .CfgRegA => 0x60
  | .CfgRegB => 0x61
  | .CfgRegC => 0x62
  | .IntCtrlReg => 0x63
  | .IntSourceReg => 0x64
  | .IntThsLReg => 0x65
  | .IntThsHReg => 0x66
  | .StatusReg => 0x67
  | .OutxLReg => 0x68
  | .OutxHReg => 0x69
  | .OutyLReg => 0x6A
  | .OutyHReg => 0x6B
  | .OutzLReg => 0x6C
  | .OutzHReg => 0x6D
  | .TempOutLReg => 0x6E
  | .TempOutHReg => 0x6F

/-- Configuration register A (address 0x60).  Bit-fields in least
significant bit first order: md (2 bits), odr (2 bits), lp (1 bit),
soft_rst (1 bit), reboot (1 bit), comp_temp_en (1 bit). -/
structure CfgRegA where
  md : Nat
  odr : Nat
  lp : Nat
  soft_rst : Nat
  reboot : Nat
  comp_temp_en : Nat
  deriving DecidableEq

/-- Pack a CfgRegA layout into its register byte, truncating every
field to its declared width. -/
def CfgRegA.encode (r : CfgRegA) : Nat :=
  r.md % 4 + 4 * (r.odr % 4) + 16 * (r.lp % 2) + 32 * (r.soft_rst % 2)
    + 64 * (r.reboot % 2) + 128 * (r.comp_temp_en % 2)

/-- Extract the CfgRegA fields from a register byte. -/
def CfgRegA.decode (b : Nat) : CfgRegA :=
  ⟨b % 4, b / 4 % 4, b / 16 % 2, b / 32 % 2, b / 64 % 2, b / 128 % 2⟩

/-- A CfgRegA layout constructed from scratch in memory: every field
takes its declared default (md defaults to 0b11, all others to 0). -/
def CfgRegA.new : CfgRegA :=
  ⟨0b11, 0, 0, 0, 0, 0⟩

/-- Configuration register B (address 0x61).  Bit-fields in least
significant bit first order: lpf (1 bit), set_rst (2 bits),
int_on_dataoff (1 bit), off_canc_one_shot (1 bit), not_used_01
(3 bits, read-only). -/
structure CfgRegB where
  lpf : Nat
  set_rst : Nat
  int_on_dataoff : Nat
  off_canc_one_shot : Nat
  not_used_01 : Nat
  deriving DecidableEq

/-- Pack a CfgRegB layout into its register byte. -/
def CfgRegB.encode (r : CfgRegB) : Nat :=
  r.lpf % 2 + 2 * (r.set_rst % 4) + 8 * (r.int_on_dataoff % 2)
    + 16 * (r.off_canc_one_shot % 2) + 32 * (r.not_used_01 % 8)

/-- Extract the CfgRegB fields from a register byte. -/
def CfgRegB.decode (b : Nat) : CfgRegB :=
  ⟨b % 2, b / 2 % 4, b / 8 % 2, b / 16 % 2, b / 32 % 8⟩

/-- Configuration register C (address 0x62).  Bit-fields in least
significant bit first order: drdy_on_pin (1 bit), self_test (1 bit),
not_used_01 (1 bit, read-only), ble (1 bit), bdu (1 bit), i2c_dis
(1 bit), int_on_pin (1 bit), not_used_02 (1 bit, read-only). -/
structure CfgRegC where
  drdy_on_pin : Nat
  self_test : Nat
  not_used_01 : Nat
  ble : Nat
  bdu : Nat
  i2c_dis : Nat
  int_on_pin : Nat
  not_used_02 : Nat
  deriving DecidableEq

/-- Pack a CfgRegC layout into its register byte. -/
def CfgRegC.encode (r : CfgRegC) : Nat :=
  r.drdy_on_pin % 2 + 2 * (r.self_test % 2) + 4 * (r.not_used_01 % 2)
    + 8 * (r.ble % 2) + 16 * (r.bdu % 2) + 32 * (r.i2c_dis % 2)
    + 64 * (r.int_on_pin % 2) + 128 * (r.not_used_02 % 2)

/-- Extract the CfgRegC fields from a register byte. -/
def CfgRegC.decode (b : Nat) : CfgRegC :=
  ⟨b % 2, b / 2 % 2, b / 4 % 2, b / 8 % 2, b / 16 % 2, b / 32 % 2,
    b / 64 % 2, b / 128 % 2⟩

/-- Interrupt source register (address 0x64, read only).  Eight
one-bit read-only fields in least significant bit first order: int,
mroi, n_th_s_z, n_th_s_y, n_th_s_x, p_th_s_z, p_th_s_y, p_th_s_x. -/
structure IntSourceReg where
  int : Nat
  mroi : Nat
  n_th_s_z : Nat
  n_th_s_y : Nat
  n_th_s_x : Nat
  p_th_s_z : Nat
  p_th_s_y : Nat
  p_th_s_x : Nat
  deriving DecidableEq

/-- Pack an IntSourceReg layout into its register byte. -/
def IntSourceReg.encode (r : IntSourceReg) : Nat :=
  r.int % 2 + 2 * (r.mroi % 2) + 4 * (r.n_th_s_z % 2) + 8 * (r.n_th_s_y % 2)
    + 16 * (r.n_th_s_x % 2) + 32 * (r.p_th_s_z % 2) + 64 * (r.p_th_s_y % 2)
    + 128 * (r.p_th_s_x % 2)

/-- Extract the IntSourceReg fields from a register byte. -/
def IntSourceReg.decode (b : Nat) : IntSourceReg :=
  ⟨b % 2, b / 2 % 2, b / 4 % 2, b / 8 % 2, b / 16 % 2, b / 32 % 2,
    b / 64 % 2, b / 128 % 2⟩

/-- Operating modes for the sensor, with their integer codes. -/
inductive Md where
  | ContinuousMode
  | SingleTrigger
  | PowerDown
  deriving DecidableEq

/-- The integer code of each operating mode. -/
def Md.toBits : Md → Nat
  | .ContinuousMode => 0
  | .SingleTrigger => 1
  | .PowerDown => 2

/-- Fallible conversion from an integer code to an operating mode;
codes outside the defined set yield none (a decode error). -/
def Md.tryFrom : Nat → Option Md
  | 0 => some .ContinuousMode
  | 1 => some .SingleTrigger
  | 2 => some .PowerDown
  | _ => none

/-- Output data rates for the sensor, with their integer codes. -/
inductive Odr where
  | hz10
  | hz20
  | hz50
  | hz100
  deriving DecidableEq

/-- The integer code of each output data rate. -/
def Odr.toBits : Odr → Nat
  | .hz10 => 0
  | .hz20 => 1
  | .hz50 => 2
  | .hz100 => 3

/-- Fallible conversion from an integer code to an output data rate. -/
def Odr.tryFrom : Nat → Option Odr
  | 0 => some .hz10
  | 1 => some .hz20
  | 2 => some .hz50
  | 3 => some .hz100
  | _ => none

/-- Power modes for the sensor, with their integer codes. -/
inductive Lp where
  | HighResolution
  | LowPower
  deriving DecidableEq

/-- The integer code of each power mode. -/
def Lp.toBits : Lp → Nat
  | .HighResolution => 0
  | .LowPower => 1

/-- Fallible conversion from an integer code to a power mode. -/
def Lp.tryFrom : Nat → Option Lp
  | 0 => some .HighResolution
  | 1 => some .LowPower
  | _ => none

/-- Low-pass filter bandwidths for the sensor, with their codes. -/
inductive Lpf where
  | OdrDiv2
  | OdrDiv4
  deriving DecidableEq

/-- The integer code of each filter bandwidth. -/
def Lpf.toBits : Lpf → Nat
  | .OdrDiv2 => 0
  | .OdrDiv4 => 1

/-- Fallible conversion from an integer code to a filter bandwidth. -/
def Lpf.tryFrom : Nat → Option Lpf
  | 0 => some .OdrDiv2
  | 1 => some .OdrDiv4
  | _ => none

/-- Set/reset pulse modes for the sensor, with their integer codes. -/
inductive SetRst where
  | SetSensOdrDiv63
  | SensOffCancEveryOdr
  | SetSensOnlyAtPowerOn
  deriving DecidableEq

/-- The integer code of each set/reset pulse mode. -/
def SetRst.toBits : SetRst → Nat
  | .SetSensOdrDiv63 => 0
  | .SensOffCancEveryOdr => 1
  | .SetSensOnlyAtPowerOn => 2

/-- Fallible conversion from an integer code to a set/reset mode. -/
def SetRst.tryFrom : Nat → Option SetRst
  | 0 => some .SetSensOdrDiv63
  | 1 => some .SensOffCancEveryOdr
  | 2 => some .SetSensOnlyAtPowerOn
  | _ => none

/-- Byte-order options for multi-byte data, with their codes. -/
inductive Ble where
  | LsbAtLowAdd
  | MsbAtLowAdd
  deriving DecidableEq

/-- The integer code of each byte-order option. -/
def Ble.toBits : Ble → Nat
  | .LsbAtLowAdd => 0
  | .MsbAtLowAdd => 1

/-- Fallible conversion from an integer code to a byte-order option. -/
def Ble.tryFrom : Nat → Option Ble
  | 0 => some .LsbAtLowAdd
  | 1 => some .MsbAtLowAdd
  | _ => none

/-- Interrupt data-check timing options, with their integer codes. -/
inductive IntOnDataOff where
  | CheckBefore
  | CheckAfter
  deriving DecidableEq

/-- The integer code of each data-check timing option. -/
def IntOnDataOff.toBits : IntOnDataOff → Nat
  | .CheckBefore => 0
  | .CheckAfter => 1

/-- Fallible conversion from a code to a data-check timing option. -/
def IntOnDataOff.tryFrom : Nat → Option IntOnDataOff
  | 0 => some .CheckBefore
  | 1 => some .CheckAfter
  | _ => none

/-- I2C interface enable/disable options, with their integer codes. -/
inductive I2cDis where
  | Enable
  | Disable
  deriving DecidableEq

/-- The integer code of each I2C interface option. -/
def I2cDis.toBits : I2cDis → Nat
  | .Enable => 0
  | .Disable => 1

/-- Fallible conversion from a code to an I2C interface option. -/
def I2cDis.tryFrom : Nat → Option I2cDis
  | 0 => some .Enable
  | 1 => some .Disable
  | _ => none

/-- Modelled from the spec: the driver facade of the crate (its lib.rs,
with the Iis2mdc handle and its operations) is not among the given
sources.  A register file is the state the mock transport exposes: a
map from register address to stored byte. -/
def RegMap : Type := Nat → Nat

/-- Modelled from the spec: writing one byte to a register address of
the register file. -/
def writeReg (regs : RegMap) (addr b : Nat) : RegMap :=
  fun a => if a = addr then b % 256 else regs a

/-- Modelled from the spec: an auto-increment burst read of n
consecutive bytes starting at a base address. -/
def readBurst (regs : RegMap) (addr n : Nat) : List Nat :=
  (List.range n).map (fun i => regs (addr + i))

/-- Modelled from the spec: two consecutive output bytes, low-address
byte first, combine as a two's-complement little-endian signed 16-bit
integer. -/
def toI16 (lo hi : Nat) : Int :=
  if lo + 256 * hi < 32768 then (lo + 256 * hi : Int)
  else (lo + 256 * hi : Int) - 65536

/-- Modelled from the spec: reconstruction of the 16-bit signed values
of a burst, pairing consecutive bytes low byte first. -/
def decodeI16Pairs : List Nat → List Int
  | lo :: hi :: rest => toI16 lo hi :: decodeI16Pairs rest
  | _ => []

/-- Modelled from the spec: magnetic_raw_get burst-reads the six
consecutive output registers starting at OutxLReg and reconstructs the
ordered triple of signed 16-bit axis values. -/
def magnetic_raw_get_pure (regs : RegMap) : List Int :=
  decodeI16Pairs (readBurst regs Reg.OutxLReg.addr 6)

/-- Modelled from the spec: block_data_update_set is a read-modify-write
of the bdu field of CfgRegC — read the register, mutate only bdu, write
the byte back. -/
def block_data_update_set (regs : RegMap) (v : Bool) : RegMap :=
  let r := CfgRegC.decode (regs Reg.CfgRegC.addr)
  writeReg regs Reg.CfgRegC.addr
    (CfgRegC.encode { r with bdu := if v then 1 else 0 })

/-- Modelled from the spec: self_test_set is a read-modify-write of the
self_test field of CfgRegC. -/
def self_test_set (regs : RegMap) (v : Bool) : RegMap :=
  let r := CfgRegC.decode (regs Reg.CfgRegC.addr)
  writeReg regs Reg.CfgRegC.addr
    (CfgRegC.encode { r with self_test := if v then 1 else 0 })

/-- Modelled from the spec: data_rate_set is a read-modify-write of the
odr field of CfgRegA. -/
def data_rate_set (regs : RegMap) (v : Odr) : RegMap :=
  let r := CfgRegA.decode (regs Reg.CfgRegA.addr)
  writeReg regs Reg.CfgRegA.addr (CfgRegA.encode { r with odr := v.toBits })

/-- Modelled from the spec: operating_mode_set is a read-modify-write of
the md field of CfgRegA. -/
def operating_mode_set (regs : RegMap) (v : Md) : RegMap :=
  let r := CfgRegA.decode (regs Reg.CfgRegA.addr)
  writeReg regs Reg.CfgRegA.addr (CfgRegA.encode { r with md := v.toBits })

/-- Modelled from the spec: offset_temp_comp_set is a read-modify-write
of the comp_temp_en field of CfgRegA. -/
def offset_temp_comp_set (regs : RegMap) (v : Bool) : RegMap :=
  let r := CfgRegA.decode (regs Reg.CfgRegA.addr)
  writeReg regs Reg.CfgRegA.addr
    (CfgRegA.encode { r with comp_temp_en := if v then 1 else 0 })

/-- Modelled from the spec: set_rst_mode_set is a read-modify-write of
the set_rst field of CfgRegB. -/
def set_rst_mode_set (regs : RegMap) (v : SetRst) : RegMap :=
  let r := CfgRegB.decode (regs Reg.CfgRegB.addr)
  writeReg regs Reg.CfgRegB.addr (CfgRegB.encode { r with set_rst := v.toBits })

/-- Modelled from the spec: the facade wraps any transport failure in a
typed error, unchanged. -/
inductive DriverError (E : Type) where
  | BusError (e : E)
  deriving DecidableEq

/-- Modelled from the spec: a mock bus transport.  It stores a register
file and, per base address, whether a read or a write transaction
starting there fails and with which transport error. -/
structure MockBus (E : Type) where
  regs : RegMap
  readFail : Nat → Option E
  writeFail : Nat → Option E

/-- Modelled from the spec: a one-byte bus read at a register address;
a transport failure aborts the transaction with its error. -/
def busReadByte (bus : MockBus E) (addr : Nat) : Except E Nat :=
  match bus.readFail addr with
  | some e => .error e
  | none => .ok (bus.regs addr)

/-- Modelled from the spec: a burst bus read of n consecutive bytes; a
transport failure aborts the whole burst with its error. -/
def busReadBurst (bus : MockBus E) (addr n : Nat) : Except E (List Nat) :=
  match bus.readFail addr with
  | some e => .error e
  | none => .ok (readBurst bus.regs addr n)

/-- Modelled from the spec: a one-byte bus write at a register address;
a transport failure aborts the transaction with its error. -/
def busWrite (bus : MockBus E) (addr b : Nat) : Except E (MockBus E) :=
  match bus.writeFail addr with
  | some e => .error e
  | none => .ok { bus with regs := writeReg bus.regs addr b }

/-- Modelled from the spec: device_id_get reads the single identity
register WhoAmI and returns the raw byte unconditionally on bus
success; it never self-validates against the expected constant. -/
def device_id_get (bus : MockBus E) : Except (DriverError E) Nat :=
  match busReadByte bus Reg.WhoAmI.addr with
  | .error e => .error (.BusError e)
  | .ok b => .ok b

/-- Modelled from the spec: magnetic_raw_get over the bus — one burst
read of the six output registers; any failure aborts the whole burst
and propagates the wrapped transport error with no partial result. -/
def magnetic_raw_get (bus : MockBus E) : Except (DriverError E) (List Int) :=
  match busReadBurst bus Reg.OutxLReg.addr 6 with
  | .error e => .error (.BusError e)
  | .ok bytes => .ok (decodeI16Pairs bytes)

/-- Modelled from the spec: block_data_update_set over the bus — one
read transaction then one write transaction, either failure propagating
the wrapped transport error. -/
def block_data_update_set_bus (bus : MockBus E) (v : Bool) :
    Except (DriverError E) (MockBus E) :=
  match busReadByte bus Reg.CfgRegC.addr with
  | .error e => .error (.BusError e)
  | .ok b =>
    match busWrite bus Reg.CfgRegC.addr
        (CfgRegC.encode { CfgRegC.decode b with bdu := if v then 1 else 0 }) with
    | .error e => .error (.BusError e)
    | .ok bus2 => .ok bus2

/-- Modelled from the spec: reset_set over the bus — a read-modify-write
of the soft_rst field of CfgRegA. -/
def reset_set_bus (bus : MockBus E) (v : Bool) :
    Except (DriverError E) (MockBus E) :=
  match busReadByte bus Reg.CfgRegA.addr with
  | .error e => .error (.BusError e)
  | .ok b =>
    match busWrite bus Reg.CfgRegA.addr
        (CfgRegA.encode { CfgRegA.decode b with soft_rst := if v then 1 else 0 }) with
    | .error e => .error (.BusError e)
    | .ok bus2 => .ok bus2

/-- Modelled from the spec: reset_get reads the soft_rst bit of CfgRegA
back from the hardware. -/
def reset_get_bus (bus : MockBus E) : Except (DriverError E) Bool :=
  match busReadByte bus Reg.CfgRegA.addr with
  | .error e => .error (.BusError e)
  | .ok b => .ok (decide ((CfgRegA.decode b).soft_rst = 1))

/-- A register file holding the spec's example burst bytes 0x10, 0x00,
0x20, 0x00, 0xF0, 0xFF in the six output registers 0x68 to 0x6D. -/
def outBytesExample : RegMap := fun a =>
  if a = 0x68 then 0x10
  else if a = 0x69 then 0x00
  else if a = 0x6A then 0x20
  else if a = 0x6B then 0x00
  else if a = 0x6C then 0xF0
  else if a = 0x6D then 0xFF
  else 0

/-- A mock bus that never fails and stores 0x12 in the identity
register, a value different from the documented identity constant. -/
def idBusExample : MockBus Nat :=
  ⟨fun a => if a = Reg.WhoAmI.addr then 0x12 else 0, fun _ => none, fun _ => none⟩

/-- A mock bus whose burst read at the output base address fails with
transport error 7. -/
def failBusExample : MockBus Nat :=
  ⟨fun _ => 0, fun a => if a = Reg.OutxLReg.addr then some 7 else none,
    fun _ => none⟩

/-- A mock bus with all registers zero that never fails. -/
def plainBusExample : MockBus Nat :=
  ⟨fun _ => 0, fun _ => none, fun _ => none⟩

end Iis2mdc

open Iis2mdc

/-- C2: for every modelled register layout and every read-write
bit-field in it, and for every value v representable in that field's
declared bit width, setting the field to v, encoding the layout to its
byte, decoding back and reading the field returns exactly v. -/
theorem C2_field_roundtrip :
    (∀ (r : CfgRegA) (v : Nat), v < 4 →
      (CfgRegA.decode (CfgRegA.encode { r with md := v })).md = v) ∧
    (∀ (r : CfgRegA) (v : Nat), v < 4 →
      (CfgRegA.decode (CfgRegA.encode { r with odr := v })).odr = v) ∧
    (∀ (r : CfgRegA) (v : Nat), v < 2 →
      (CfgRegA.decode (CfgRegA.encode { r with lp := v })).lp = v) ∧
    (∀ (r : CfgRegA) (v : Nat), v < 2 →
      (CfgRegA.decode (CfgRegA.encode { r with soft_rst := v })).soft_rst = v) ∧
    (∀ (r : CfgRegA) (v : Nat), v < 2 →
      (CfgRegA.decode (CfgRegA.encode { r with reboot := v })).reboot = v) ∧
    (∀ (r : CfgRegA) (v : Nat), v < 2 →
      (CfgRegA.decode (CfgRegA.encode { r with comp_temp_en := v })).comp_temp_en = v) ∧
    (∀ (r : CfgRegB) (v : Nat), v < 2 →
      (CfgRegB.decode (CfgRegB.encode { r with lpf := v })).lpf = v) ∧
    (∀ (r : CfgRegB) (v : Nat), v < 4 →
      (CfgRegB.decode (CfgRegB.encode { r with set_rst := v })).set_rst = v) ∧
    (∀ (r : CfgRegB) (v : Nat), v < 2 →
      (CfgRegB.decode (CfgRegB.encode { r with int_on_dataoff := v })).int_on_dataoff = v) ∧
    (∀ (r : CfgRegB) (v : Nat), v < 2 →
      (CfgRegB.decode (CfgRegB.encode { r with off_canc_one_shot := v })).off_canc_one_shot = v) ∧
    (∀ (r : CfgRegC) (v : Nat), v < 2 →
      (CfgRegC.decode (CfgRegC.encode { r with drdy_on_pin := v })).drdy_on_pin = v) ∧
    (∀ (r : CfgRegC) (v : Nat), v < 2 →
      (CfgRegC.decode (CfgRegC.encode { r with self_test := v })).self_test = v) ∧
    (∀ (r : CfgRegC) (v : Nat), v < 2 →
      (CfgRegC.decode (CfgRegC.encode { r with ble := v })).ble = v) ∧
    (∀ (r : CfgRegC) (v : Nat), v < 2 →
      (CfgRegC.decode (CfgRegC.encode { r with bdu := v })).bdu = v) ∧
    (∀ (r : CfgRegC) (v : Nat), v < 2 →
      (CfgRegC.decode (CfgRegC.encode { r with i2c_dis := v })).i2c_dis = v) ∧
    (∀ (r : CfgRegC) (v : Nat), v < 2 →
      (CfgRegC.decode (CfgRegC.encode { r with int_on_pin := v })).int_on_pin = v) := by
  refine ⟨?_, ?_, ?_, ?_, ?_, ?_, ?_, ?_, ?_, ?_, ?_, ?_, ?_, ?_, ?_, ?_⟩ <;>
    · intro r v hv
      simp [CfgRegA.encode, CfgRegA.decode, CfgRegB.encode, CfgRegB.decode,
        CfgRegC.encode, CfgRegC.decode]
      omega

/-- Witness for C2 at a concrete layout and field value. -/
theorem C2_field_roundtrip_witness :
    (CfgRegA.decode (CfgRegA.encode { CfgRegA.new with odr := 2 })).odr = 2 ∧
    (CfgRegC.decode (CfgRegC.encode { CfgRegC.decode 0xFF with bdu := 0 })).bdu = 0 :=
  ⟨C2_field_roundtrip.2.1 CfgRegA.new 2 (by decide),
    C2_field_roundtrip.2.2.2.2.2.2.2.2.2.2.2.2.2.1 (CfgRegC.decode 0xFF) 0 (by decide)⟩

/-- C3: for every byte pattern, encoding the layout obtained by
decoding it reproduces the byte exactly, and the read-only / not-used
bit positions carry the decoded bits of the byte rather than any
default value. -/
theorem C3_byte_roundtrip :
    (∀ b : Nat, b < 256 → CfgRegA.encode (CfgRegA.decode b) = b) ∧
    (∀ b : Nat, b < 256 → CfgRegB.encode (CfgRegB.decode b) = b) ∧
    (∀ b : Nat, b < 256 → CfgRegC.encode (CfgRegC.decode b) = b) ∧
    (∀ b : Nat, b < 256 → IntSourceReg.encode (IntSourceReg.decode b) = b) ∧
    (∀ b : Nat, (CfgRegB.decode b).not_used_01 = b / 32 % 8) ∧
    (∀ b : Nat, (CfgRegC.decode b).not_used_01 = b / 4 % 2) ∧
    (∀ b : Nat, (CfgRegC.decode b).not_used_02 = b / 128 % 2) ∧
    (∀ b : Nat, (IntSourceReg.decode b).int = b % 2) := by
  refine ⟨?_, ?_, ?_, ?_, ?_, ?_, ?_, ?_⟩ <;>
    · intro b
      simp [CfgRegA.encode, CfgRegA.decode, CfgRegB.encode, CfgRegB.decode,
        CfgRegC.encode, CfgRegC.decode, IntSourceReg.encode,
        IntSourceReg.decode] <;> omega

/-- Witness for C3 at a concrete byte pattern. -/
theorem C3_byte_roundtrip_witness :
    CfgRegB.encode (CfgRegB.decode 0xA5) = 0xA5 ∧
    IntSourceReg.encode (IntSourceReg.decode 0x5A) = 0x5A :=
  ⟨C3_byte_roundtrip.2.1 0xA5 (by decide), C3_byte_roundtrip.2.2.2.1 0x5A (by decide)⟩

/-- C6: field defaults apply only to a layout constructed from scratch
in memory: a fresh CfgRegA has md equal to 0b11, while the layout
decoded from any byte has md equal to the two low bits of that byte. -/
theorem C6_defaults_only_fresh :
    CfgRegA.new.md = 0b11 ∧
    (∀ b : Nat, (CfgRegA.decode b).md = b % 4) :=
  ⟨rfl, fun _ => rfl⟩

/-- C7: the fresh-instance default of the operating-mode field, 0b11,
is not a valid code of the Md enumeration, whose codes are exactly 0,
1 and 2; converting the default md value, or the md bits of any byte
whose two low bits are 0b11, to Md yields a decode failure. -/
theorem C7_default_md_not_decodable :
    (∀ m : Md, m.toBits = 0 ∨ m.toBits = 1 ∨ m.toBits = 2) ∧
    CfgRegA.new.md = 3 ∧
    Md.tryFrom CfgRegA.new.md = none ∧
    (∀ b : Nat, b % 4 = 3 → Md.tryFrom (CfgRegA.decode b).md = none) := by
  refine ⟨fun m => ?_, rfl, rfl, fun b hb => ?_⟩
  · cases m <;> simp [Md.toBits]
  · simp [CfgRegA.decode, hb, Md.tryFrom]

/-- Witness for C7 at a concrete byte whose md bits are 0b11. -/
theorem C7_default_md_not_decodable_witness :
    Md.tryFrom (CfgRegA.decode 0x63).md = none :=
  C7_default_md_not_decodable.2.2.2 0x63 (by decide)

/-- C5: every variant of each closed configuration enumeration converts
to its integer code and back to the same variant, and every integer
code outside the defined set fails to convert (an explicit decode
error, modelled as none, not a default variant). -/
theorem C5_enum_roundtrip_and_reject :
    (∀ m : Md, Md.tryFrom m.toBits = some m) ∧
    (∀ c : Nat, 3 ≤ c → Md.tryFrom c = none) ∧
    (∀ m : Odr, Odr.tryFrom m.toBits = some m) ∧
    (∀ c : Nat, 4 ≤ c → Odr.tryFrom c = none) ∧
    (∀ m : Lp, Lp.tryFrom m.toBits = some m) ∧
    (∀ c : Nat, 2 ≤ c → Lp.tryFrom c = none) ∧
    (∀ m : Lpf, Lpf.tryFrom m.toBits = some m) ∧
    (∀ c : Nat, 2 ≤ c → Lpf.tryFrom c = none) ∧
    (∀ m : SetRst, SetRst.tryFrom m.toBits = some m) ∧
    (∀ c : Nat, 3 ≤ c → SetRst.tryFrom c = none) ∧
    (∀ m : Ble, Ble.tryFrom m.toBits = some m) ∧
    (∀ c : Nat, 2 ≤ c → Ble.tryFrom c = none) ∧
    (∀ m : IntOnDataOff, IntOnDataOff.tryFrom m.toBits = some m) ∧
    (∀ c : Nat, 2 ≤ c → IntOnDataOff.tryFrom c = none) ∧
    (∀ m : I2cDis, I2cDis.tryFrom m.toBits = some m) ∧
    (∀ c : Nat, 2 ≤ c → I2cDis.tryFrom c = none) := by
  refine ⟨fun m => ?_, fun c hc => ?_, fun m => ?_, fun c hc => ?_, fun m => ?_,
    fun c hc => ?_, fun m => ?_, fun c hc => ?_, fun m => ?_, fun c hc => ?_,
    fun m => ?_, fun c hc => ?_, fun m => ?_, fun c hc => ?_, fun m => ?_,
    fun c hc => ?_⟩ <;>
    first
      | (cases m <;> rfl)
      | (rcases c with _ | _ | _ | _ | c <;> first | omega | rfl)

/-- Witness for C5 at concrete variants and out-of-range codes. -/
theorem C5_enum_roundtrip_and_reject_witness :
    Md.tryFrom Md.PowerDown.toBits = some Md.PowerDown ∧
    Md.tryFrom 3 = none ∧
    Odr.tryFrom 7 = none ∧
    SetRst.tryFrom 3 = none :=
  ⟨C5_enum_roundtrip_and_reject.1 Md.PowerDown,
    C5_enum_roundtrip_and_reject.2.1 3 (by decide),
    C5_enum_roundtrip_and_reject.2.2.2.1 7 (by decide),
    C5_enum_roundtrip_and_reject.2.2.2.2.2.2.2.2.2.1 3 (by decide)⟩

/-- C1: each pair of consecutive output bytes, low-address byte first,
combines as a two's-complement little-endian signed 16-bit integer;
the three-axis group is exactly the six consecutive bytes starting at
OutxLReg; and the spec's example byte sequence decodes to the ordered
triple of 16, 32 and -16. -/
theorem C1_out_xyz_burst_decode :
    (∀ lo hi : Nat, lo < 256 → hi < 256 →
      -32768 ≤ toI16 lo hi ∧ toI16 lo hi < 32768 ∧
      toI16 lo hi % 65536 = ((lo : Int) + 256 * hi) % 65536 ∧
      (lo + 256 * hi < 32768 → toI16 lo hi = (lo : Int) + 256 * hi) ∧
      (32768 ≤ lo + 256 * hi → toI16 lo hi = (lo : Int) + 256 * hi - 65536)) ∧
    (∀ regs : RegMap, readBurst regs Reg.OutxLReg.addr 6 =
      [regs 0x68, regs 0x69, regs 0x6A, regs 0x6B, regs 0x6C, regs 0x6D]) ∧
    (∀ regs : RegMap, magnetic_raw_get_pure regs =
      [toI16 (regs 0x68) (regs 0x69), toI16 (regs 0x6A) (regs 0x6B),
        toI16 (regs 0x6C) (regs 0x6D)]) ∧
    magnetic_raw_get_pure outBytesExample = [16, 32, -16] := by
  refine ⟨fun lo hi h1 h2 => ?_, fun regs => rfl, fun regs => rfl, by decide⟩
  simp only [toI16]
  split <;> omega

/-- Witness for C1 at the example high-order pair 0xF0, 0xFF. -/
theorem C1_out_xyz_burst_decode_witness :
    -32768 ≤ toI16 0xF0 0xFF ∧
    toI16 0xF0 0xFF = (0xF0 : Int) + 256 * 0xFF - 65536 :=
  ⟨(C1_out_xyz_burst_decode.1 0xF0 0xFF (by decide) (by decide)).1,
    (C1_out_xyz_burst_decode.1 0xF0 0xFF (by decide) (by decide)).2.2.2.2
      (by decide)⟩

/-- Every CfgRegA layout packs to a value below 256. -/
theorem cfgA_encode_lt (r : CfgRegA) : r.encode < 256 := by
  simp only [CfgRegA.encode]; omega

/-- Every CfgRegB layout packs to a value below 256. -/
theorem cfgB_encode_lt (r : CfgRegB) : r.encode < 256 := by
  simp only [CfgRegB.encode]; omega

/-- Every CfgRegC layout packs to a value below 256. -/
theorem cfgC_encode_lt (r : CfgRegC) : r.encode < 256 := by
  simp only [CfgRegC.encode]; omega

/-- Packing an in-range CfgRegA layout, reducing modulo 256 and
unpacking recovers the layout. -/
theorem cfgA_roundtrip_mk (f0 f1 f2 f3 f4 f5 : Nat)
    (h0 : f0 < 4) (h1 : f1 < 4) (h2 : f2 < 2) (h3 : f3 < 2) (h4 : f4 < 2)
    (h5 : f5 < 2) :
    CfgRegA.decode (CfgRegA.encode ⟨f0, f1, f2, f3, f4, f5⟩ % 256)
      = ⟨f0, f1, f2, f3, f4, f5⟩ := by
  rw [Nat.mod_eq_of_lt (cfgA_encode_lt _)]
  simp only [CfgRegA.encode, CfgRegA.decode, CfgRegA.mk.injEq]
  omega

/-- Packing an in-range CfgRegB layout, reducing modulo 256 and
unpacking recovers the layout. -/
theorem cfgB_roundtrip_mk (f0 f1 f2 f3 f4 : Nat)
    (h0 : f0 < 2) (h1 : f1 < 4) (h2 : f2 < 2) (h3 : f3 < 2) (h4 : f4 < 8) :
    CfgRegB.decode (CfgRegB.encode ⟨f0, f1, f2, f3, f4⟩ % 256)
      = ⟨f0, f1, f2, f3, f4⟩ := by
  rw [Nat.mod_eq_of_lt (cfgB_encode_lt _)]
  simp only [CfgRegB.encode, CfgRegB.decode, CfgRegB.mk.injEq]
  omega

/-- Packing an in-range CfgRegC layout, reducing modulo 256 and
unpacking recovers the layout. -/
theorem cfgC_roundtrip_mk (f0 f1 f2 f3 f4 f5 f6 f7 : Nat)
    (h0 : f0 < 2) (h1 : f1 < 2) (h2 : f2 < 2) (h3 : f3 < 2) (h4 : f4 < 2)
    (h5 : f5 < 2) (h6 : f6 < 2) (h7 : f7 < 2) :
    CfgRegC.decode (CfgRegC.encode ⟨f0, f1, f2, f3, f4, f5, f6, f7⟩ % 256)
      = ⟨f0, f1, f2, f3, f4, f5, f6, f7⟩ := by
  rw [Nat.mod_eq_of_lt (cfgC_encode_lt _)]
  simp only [CfgRegC.encode, CfgRegC.decode, CfgRegC.mk.injEq]
  omega

/-- Every field of a decoded CfgRegA layout lies within its width. -/
theorem cfgA_decode_lt (b : Nat) :
    (CfgRegA.decode b).md < 4 ∧ (CfgRegA.decode b).odr < 4 ∧
    (CfgRegA.decode b).lp < 2 ∧ (CfgRegA.decode b).soft_rst < 2 ∧
    (CfgRegA.decode b).reboot < 2 ∧ (CfgRegA.decode b).comp_temp_en < 2 := by
  simp only [CfgRegA.decode]; omega

/-- Every field of a decoded CfgRegB layout lies within its width. -/
theorem cfgB_decode_lt (b : Nat) :
    (CfgRegB.decode b).lpf < 2 ∧ (CfgRegB.decode b).set_rst < 4 ∧
    (CfgRegB.decode b).int_on_dataoff < 2 ∧
    (CfgRegB.decode b).off_canc_one_shot < 2 ∧
    (CfgRegB.decode b).not_used_01 < 8 := by
  simp only [CfgRegB.decode]; omega

/-- Every field of a decoded CfgRegC layout lies within its width. -/
theorem cfgC_decode_lt (b : Nat) :
    (CfgRegC.decode b).drdy_on_pin < 2 ∧ (CfgRegC.decode b).self_test < 2 ∧
    (CfgRegC.decode b).not_used_01 < 2 ∧ (CfgRegC.decode b).ble < 2 ∧
    (CfgRegC.decode b).bdu < 2 ∧ (CfgRegC.decode b).i2c_dis < 2 ∧
    (CfgRegC.decode b).int_on_pin < 2 ∧ (CfgRegC.decode b).not_used_02 < 2 := by
  simp only [CfgRegC.decode]; omega

/-- C4: every single-field facade setter is a read-modify-write that
changes only its targeted bit-field of its register and leaves every
other field at the prior value, and leaves every other register
untouched; in particular block_data_update_set preserves self_test. -/
theorem C4_setter_frame :
    (∀ (regs : RegMap) (v : Bool),
      CfgRegC.decode (block_data_update_set regs v Reg.CfgRegC.addr)
        = { CfgRegC.decode (regs Reg.CfgRegC.addr) with
            bdu := if v then 1 else 0 }) ∧
    (∀ (regs : RegMap) (v : Bool) (a : Nat), a ≠ Reg.CfgRegC.addr →
      block_data_update_set regs v a = regs a) ∧
    (∀ (regs : RegMap) (v : Bool),
      CfgRegC.decode (self_test_set regs v Reg.CfgRegC.addr)
        = { CfgRegC.decode (regs Reg.CfgRegC.addr) with
            self_test := if v then 1 else 0 }) ∧
    (∀ (regs : RegMap) (v : Bool) (a : Nat), a ≠ Reg.CfgRegC.addr →
      self_test_set regs v a = regs a) ∧
    (∀ (regs : RegMap) (v : Odr),
      CfgRegA.decode (data_rate_set regs v Reg.CfgRegA.addr)
        = { CfgRegA.decode (regs Reg.CfgRegA.addr) with odr := v.toBits }) ∧
    (∀ (regs : RegMap) (v : Odr) (a : Nat), a ≠ Reg.CfgRegA.addr →
      data_rate_set regs v a = regs a) ∧
    (∀ (regs : RegMap) (v : Md),
      CfgRegA.decode (operating_mode_set regs v Reg.CfgRegA.addr)
        = { CfgRegA.decode (regs Reg.CfgRegA.addr) with md := v.toBits }) ∧
    (∀ (regs : RegMap) (v : Md) (a : Nat), a ≠ Reg.CfgRegA.addr →
      operating_mode_set regs v a = regs a) ∧
    (∀ (regs : RegMap) (v : Bool),
      CfgRegA.decode (offset_temp_comp_set regs v Reg.CfgRegA.addr)
        = { CfgRegA.decode (regs Reg.CfgRegA.addr) with
            comp_temp_en := if v then 1 else 0 }) ∧
    (∀ (regs : RegMap) (v : Bool) (a : Nat), a ≠ Reg.CfgRegA.addr →
      offset_temp_comp_set regs v a = regs a) ∧
    (∀ (regs : RegMap) (v : SetRst),
      CfgRegB.decode (set_rst_mode_set regs v Reg.CfgRegB.addr)
        = { CfgRegB.decode (regs Reg.CfgRegB.addr) with
            set_rst := v.toBits }) ∧
    (∀ (regs : RegMap) (v : SetRst) (a : Nat), a ≠ Reg.CfgRegB.addr →
      set_rst_mode_set regs v a = regs a) ∧
    (∀ (regs : RegMap),
      (CfgRegC.decode (block_data_update_set regs true Reg.CfgRegC.addr)).self_test
        = (CfgRegC.decode (regs Reg.CfgRegC.addr)).self_test) := by
  have hbdu : ∀ (regs : RegMap) (v : Bool),
      CfgRegC.decode (block_data_update_set regs v Reg.CfgRegC.addr)
        = { CfgRegC.decode (regs Reg.CfgRegC.addr) with
            bdu := if v then 1 else 0 } := by
    intro regs v
    simp only [block_data_update_set, writeReg, if_pos]
    exact cfgC_roundtrip_mk _ _ _ _ _ _ _ _
      (cfgC_decode_lt _).1 (cfgC_decode_lt _).2.1
      (cfgC_decode_lt _).2.2.1 (cfgC_decode_lt _).2.2.2.1
      (by cases v <;> decide) (cfgC_decode_lt _).2.2.2.2.2.1
      (cfgC_decode_lt _).2.2.2.2.2.2.1 (cfgC_decode_lt _).2.2.2.2.2.2.2
  refine ⟨hbdu, ?_, ?_, ?_, ?_, ?_, ?_, ?_, ?_, ?_, ?_, ?_, ?_⟩
  · intro regs v a ha
    simp [block_data_update_set, writeReg, ha]
  · intro regs v
    simp only [self_test_set, writeReg, if_pos]
    exact cfgC_roundtrip_mk _ _ _ _ _ _ _ _
      (cfgC_decode_lt _).1 (by cases v <;> decide)
      (cfgC_decode_lt _).2.2.1 (cfgC_decode_lt _).2.2.2.1
      (cfgC_decode_lt _).2.2.2.2.1 (cfgC_decode_lt _).2.2.2.2.2.1
      (cfgC_decode_lt _).2.2.2.2.2.2.1 (cfgC_decode_lt _).2.2.2.2.2.2.2
  · intro regs v a ha
    simp [self_test_set, writeReg, ha]
  · intro regs v
    simp only [data_rate_set, writeReg, if_pos]
    exact cfgA_roundtrip_mk _ _ _ _ _ _
      (cfgA_decode_lt _).1 (by cases v <;> decide)
      (cfgA_decode_lt _).2.2.1 (cfgA_decode_lt _).2.2.2.1
      (cfgA_decode_lt _).2.2.2.2.1 (cfgA_decode_lt _).2.2.2.2.2
  · intro regs v a ha
    simp [data_rate_set, writeReg, ha]
  · intro regs v
    simp only [operating_mode_set, writeReg, if_pos]
    exact cfgA_roundtrip_mk _ _ _ _ _ _
      (by cases v <;> decide) (cfgA_decode_lt _).2.1
      (cfgA_decode_lt _).2.2.1 (cfgA_decode_lt _).2.2.2.1
      (cfgA_decode_lt _).2.2.2.2.1 (cfgA_decode_lt _).2.2.2.2.2
  · intro regs v a ha
    simp [operating_mode_set, writeReg, ha]
  · intro regs v
    simp only [offset_temp_comp_set, writeReg, if_pos]
    exact cfgA_roundtrip_mk _ _ _ _ _ _
      (cfgA_decode_lt _).1 (cfgA_decode_lt _).2.1
      (cfgA_decode_lt _).2.2.1 (cfgA_decode_lt _).2.2.2.1
      (cfgA_decode_lt _).2.2.2.2.1 (by cases v <;> decide)
  · intro regs v a ha
    simp [offset_temp_comp_set, writeReg, ha]
  · intro regs v
    simp only [set_rst_mode_set, writeReg, if_pos]
    exact cfgB_roundtrip_mk _ _ _ _ _
      (cfgB_decode_lt _).1 (by cases v <;> decide)
      (cfgB_decode_lt _).2.2.1 (cfgB_decode_lt _).2.2.2.1
      (cfgB_decode_lt _).2.2.2.2
  · intro regs v a ha
    simp [set_rst_mode_set, writeReg, ha]
  · intro regs
    rw [hbdu regs true]

/-- Witness for C4 at a concrete register file and a distinct
address. -/
theorem C4_setter_frame_witness :
    block_data_update_set outBytesExample true Reg.CfgRegA.addr
      = outBytesExample Reg.CfgRegA.addr :=
  C4_setter_frame.2.1 outBytesExample true Reg.CfgRegA.addr (by decide)

/-- C8: a transport failure during the read or the write of a facade
operation aborts the operation and surfaces the transport error
wrapped unchanged in the typed driver error, with no partial result;
the handle stays usable, so an unrelated operation on the same bus
still succeeds. -/
theorem C8_error_propagation :
    (∀ (E : Type) (bus : MockBus E) (e : E),
      bus.readFail Reg.OutxLReg.addr = some e →
      magnetic_raw_get bus = .error (.BusError e)) ∧
    (∀ (E : Type) (bus : MockBus E) (e : E) (v : Bool),
      bus.readFail Reg.CfgRegC.addr = some e →
      block_data_update_set_bus bus v = .error (.BusError e)) ∧
    (∀ (E : Type) (bus : MockBus E) (e : E) (v : Bool),
      bus.readFail Reg.CfgRegC.addr = none →
      bus.writeFail Reg.CfgRegC.addr = some e →
      block_data_update_set_bus bus v = .error (.BusError e)) ∧
    (∀ (E : Type) (bus : MockBus E) (e : E),
      bus.readFail Reg.OutxLReg.addr = some e →
      bus.readFail Reg.WhoAmI.addr = none →
      device_id_get bus = .ok (bus.regs Reg.WhoAmI.addr)) := by
  refine ⟨fun E bus e h => ?_, fun E bus e v h => ?_, fun E bus e v h1 h2 => ?_,
    fun E bus e h1 h2 => ?_⟩
  · simp [magnetic_raw_get, busReadBurst, h]
  · simp [block_data_update_set_bus, busReadByte, h]
  · simp [block_data_update_set_bus, busReadByte, busWrite, h1, h2]
  · simp [device_id_get, busReadByte, h2]

/-- Witness for C8 on a mock bus whose output burst read fails with
transport error 7. -/
theorem C8_error_propagation_witness :
    magnetic_raw_get failBusExample = .error (.BusError 7) ∧
    device_id_get failBusExample = .ok 0 :=
  ⟨C8_error_propagation.1 Nat failBusExample 7 rfl,
    C8_error_propagation.2.2.2 Nat failBusExample 7 rfl rfl⟩

/-- C9: reset_set performs a read-modify-write of the soft_rst bit of
CfgRegA and reset_get reads that bit back: right after reset_set true
succeeds, and while the mock transport still returns the written byte,
reset_get reports true; once the bit is cleared (the hardware
auto-clear, simulated on the mock), reset_get reports false. -/
theorem C9_reset_rmw :
    (∀ (E : Type) (bus : MockBus E),
      bus.readFail Reg.CfgRegA.addr = none →
      bus.writeFail Reg.CfgRegA.addr = none →
      ∃ bus2, reset_set_bus bus true = .ok bus2 ∧
        reset_get_bus bus2 = .ok true) ∧
    (∀ (E : Type) (bus : MockBus E),
      bus.readFail Reg.CfgRegA.addr = none →
      (CfgRegA.decode (bus.regs Reg.CfgRegA.addr)).soft_rst = 0 →
      reset_get_bus bus = .ok false) := by
  refine ⟨fun E bus h1 h2 => ?_, fun E bus h1 h2 => ?_⟩
  · refine ⟨⟨writeReg bus.regs Reg.CfgRegA.addr
        (CfgRegA.encode
          { CfgRegA.decode (bus.regs Reg.CfgRegA.addr) with soft_rst := 1 }),
        bus.readFail, bus.writeFail⟩, ?_, ?_⟩
    · simp [reset_set_bus, busReadByte, busWrite, h1, h2]
    · simp only [reset_get_bus, busReadByte, h1, writeReg, if_pos]
      rw [cfgA_roundtrip_mk _ _ _ _ _ _ (cfgA_decode_lt _).1
        (cfgA_decode_lt _).2.1 (cfgA_decode_lt _).2.2.1 (by decide)
        (cfgA_decode_lt _).2.2.2.2.1 (cfgA_decode_lt _).2.2.2.2.2]
      simp
  · simp [reset_get_bus, busReadByte, h1, h2]

/-- Witness for C9 on an all-zero mock bus. -/
theorem C9_reset_rmw_witness :
    (∃ bus2, reset_set_bus plainBusExample true = .ok bus2 ∧
      reset_get_bus bus2 = .ok true) ∧
    reset_get_bus plainBusExample = .ok false :=
  ⟨C9_reset_rmw.1 Nat plainBusExample rfl rfl,
    C9_reset_rmw.2 Nat plainBusExample rfl (by decide)⟩

/-- C10: device_id_get reads the identity register WhoAmI at address
0x4F and, whenever the bus read succeeds, returns the raw byte the
device holds there, whatever its value; no internal validation against
the expected identity constant takes place. -/
theorem C10_device_id_raw :
    Reg.WhoAmI.addr = 0x4F ∧
    (∀ (E : Type) (bus : MockBus E),
      bus.readFail Reg.WhoAmI.addr = none →
      device_id_get bus = .ok (bus.regs Reg.WhoAmI.addr)) :=
  ⟨rfl, fun E bus h => by simp [device_id_get, busReadByte, h]⟩

/-- Witness for C10 on a mock bus whose identity register holds 0x12,
a value different from the documented identity constant. -/
theorem C10_device_id_raw_witness :
    device_id_get idBusExample = .ok 0x12 :=
  C10_device_id_raw.2 Nat idBusExample rfl
